import Mathlib

/-!
Verification development for the arc-hives backend (a small Express/Supabase
article-publishing service).  The repository contains several near-duplicate
revisions of the server:
  * `src/server.js`           — the most advanced revision (spend flow, multer upload);
  * `src/unnamed/part_000`    — an early revision hashing `title + content + Date.now()`;
  * `src/unnamed/part_001`    — the revision with the verify / PDF-certificate endpoints;
  * `src/unnamed/part_002`    — two revisions: a content-only-hash upload, and a
                                 second server identical in spirit to part_000.

The handlers are embedded as pure functions from a database state and a request
to a response and a new database state.  JavaScript numbers are modelled as
rationals (`ℚ`); `Number(x.toFixed(2))` is modelled as rounding to two decimal
places, half away from zero; JavaScript `null`/`undefined`/NaN are modelled with
`Option`.
-/

namespace ArcHives

/-- Round a rational to the nearest integer, ties away from zero.  This models
the rounding performed by JavaScript's `Number.prototype.toFixed` on the values
that occur in this code base. -/
def roundHalfAway (q : ℚ) : ℤ :=
  if 0 ≤ q then ⌊q + 1/2⌋ else -⌊-q + 1/2⌋

/-- Round a rational to two decimal places, ties away from zero: the model of
`Number(x.toFixed(2))` as used throughout the servers. -/
def round2 (q : ℚ) : ℚ :=
  (roundHalfAway (q * 100) : ℚ) / 100

theorem roundHalfAway_mono {q r : ℚ} (h : q ≤ r) :
    roundHalfAway q ≤ roundHalfAway r := by
  unfold roundHalfAway
  by_cases hq : 0 ≤ q
  · have hr : 0 ≤ r := le_trans hq h
    simp only [hq, hr, if_true]
    exact Int.floor_le_floor (by linarith)
  · by_cases hr : 0 ≤ r
    · simp only [hq, hr, if_true, if_false]
      have h1 : (0 : ℤ) ≤ ⌊r + 1/2⌋ := by
        apply Int.floor_nonneg.mpr; linarith
      have h2 : (0 : ℤ) ≤ ⌊-q + 1/2⌋ := by
        apply Int.floor_nonneg.mpr
        push_neg at hq
        linarith
      omega
    · simp only [hq, hr, if_false]
      have : ⌊-r + 1/2⌋ ≤ ⌊-q + 1/2⌋ := Int.floor_le_floor (by linarith)
      omega

theorem roundHalfAway_nonneg {q : ℚ} (h : 0 ≤ q) : 0 ≤ roundHalfAway q := by
  unfold roundHalfAway
  simp only [h, if_true]
  exact Int.floor_nonneg.mpr (by linarith)

theorem roundHalfAway_intCast (n : ℤ) : roundHalfAway (n : ℚ) = n := by
  unfold roundHalfAway
  have hhalf : ⌊(1/2 : ℚ)⌋ = 0 := by norm_num
  by_cases h : (0 : ℚ) ≤ (n : ℚ)
  · simp only [h, if_true]
    rw [Int.floor_int_add, hhalf, add_zero]
  · simp only [h, if_false]
    rw [show (-(n : ℚ) + 1/2) = ((-n : ℤ) : ℚ) + 1/2 by push_cast; ring]
    rw [Int.floor_int_add, hhalf, add_zero]
    omega

theorem round2_mono {q r : ℚ} (h : q ≤ r) : round2 q ≤ round2 r := by
  unfold round2
  have : roundHalfAway (q * 100) ≤ roundHalfAway (r * 100) :=
    roundHalfAway_mono (by linarith)
  have h2 : ((roundHalfAway (q * 100) : ℤ) : ℚ) ≤ ((roundHalfAway (r * 100) : ℤ) : ℚ) := by
    exact_mod_cast this
  linarith

theorem round2_nonneg {q : ℚ} (h : 0 ≤ q) : 0 ≤ round2 q := by
  unfold round2
  have : (0 : ℤ) ≤ roundHalfAway (q * 100) := roundHalfAway_nonneg (by linarith)
  have h2 : (0 : ℚ) ≤ ((roundHalfAway (q * 100) : ℤ) : ℚ) := by exact_mod_cast this
  linarith

theorem round2_intCast (n : ℤ) : round2 (n : ℚ) = n := by
  unfold round2
  rw [show ((n:ℚ) * 100) = ((n * 100 : ℤ) : ℚ) by push_cast; ring, roundHalfAway_intCast]
  push_cast
  ring

theorem round2_cents (n : ℤ) : round2 ((n : ℚ) / 100) = (n : ℚ) / 100 := by
  unfold round2
  rw [show ((n:ℚ)/100) * 100 = (n:ℚ) by field_simp, roundHalfAway_intCast]

theorem round2_eq_div (q : ℚ) (n : ℤ) (h0 : 0 ≤ q)
    (h1 : (n : ℚ) ≤ q * 100 + 1/2) (h2 : q * 100 + 1/2 < n + 1) :
    round2 q = (n : ℚ) / 100 := by
  unfold round2 roundHalfAway
  rw [if_pos (by linarith), Int.floor_eq_iff.mpr ⟨h1, h2⟩]

/-- An `articles` row.  `certificate_id = none` models SQL NULL; `points = none`
models a NULL / non-numeric `points` column (`server.js` guards with
`typeof artRow.points === 'number'`).  Presentation-only metadata columns that
no handler logic reads (`authors`, `original_link`, `bibliography`, `file_url`,
`created_at`) are omitted. -/
structure Article where
  id : Nat
  title : String
  content : String
  sha256 : String
  certificate_id : Option String := none
  points : Option ℚ := none
deriving Repr, DecidableEq

/-- A `comments` row as inserted by `server.js` `/add-comment` (the most
advanced revision, which also stores `has_identifying_info`). -/
structure Comment where
  id : Nat
  article_id : Nat
  commenter_name : String
  comment : String
  citations_count : ℚ
  has_identifying_info : Bool
  points : ℚ
deriving Repr, DecidableEq

/-- A `comments` row as inserted by the second server of `part_002` (and by
`part_000`), whose insert does not include a `has_identifying_info` column. -/
structure P002Comment where
  id : Nat
  article_id : Nat
  commenter_name : String
  comment : String
  citations_count : ℚ
  points : ℚ
deriving Repr, DecidableEq

/-- A `members` row (`server.js` spend flow).  `points = none` models a NULL /
non-finite balance (`server.js` checks `Number.isFinite(mData.points)`). -/
structure Member where
  id : Nat
  points : Option ℚ
deriving Repr, DecidableEq

/-- The state of the hosted store as seen by the handlers: the three tables,
plus the store-assigned id counters. -/
structure DB where
  articles : List Article := []
  comments : List Comment := []
  p002comments : List P002Comment := []
  members : List Member := []
  nextArticleId : Nat := 1
  nextCommentId : Nat := 1
deriving Repr, DecidableEq

/-- The model of Supabase's `.single()`: exactly one matching row yields the
row, zero or several matching rows yield an error (here `none`). -/
def getSingle : List α → Option α
  | [a] => some a
  | _ => none

theorem getSingle_eq_some {l : List α} {a : α} :
    getSingle l = some a ↔ l = [a] := by
  cases l with
  | nil => simp [getSingle]
  | cons x t =>
    cases t with
    | nil =>
      constructor
      · intro h
        simp only [getSingle] at h
        simp [Option.some_inj.mp h]
      · intro h
        simp only [List.cons.injEq] at h
        simp [getSingle, h.1]
    | cons y u => simp [getSingle]

/-- `.from('articles').select(...).eq('sha256', fp).single()`. -/
def findBySha (db : DB) (fp : String) : Option Article :=
  getSingle (db.articles.filter (fun a => a.sha256 == fp))

/-- `.from('articles').select(...).eq('id', aid).single()`. -/
def findArticleById (db : DB) (aid : Nat) : Option Article :=
  getSingle (db.articles.filter (fun a => a.id == aid))

/-- `.from('members').select('id, points').eq('id', mid).single()`. -/
def findMember (db : DB) (mid : Nat) : Option Member :=
  getSingle (db.members.filter (fun m => m.id == mid))

/-- Store-level error outcomes surfaced by the Supabase client. -/
inductive StoreErr where
  | conflict
  | unavailable
deriving Repr, DecidableEq

/-- Modelled from the spec: the uniqueness constraint on the fingerprint column
lives in the hosted store's schema, which is not part of `src/`; §4.2 of the
spec specifies that the store's `create` fails with `Conflict` exactly when
that constraint is violated.  The inserted row receives the store-assigned id. -/
def appendArticle (db : DB) (title content sha256 : String) : DB × Article :=
  let a : Article := { id := db.nextArticleId, title := title,
                       content := content, sha256 := sha256 }
  ({ db with articles := db.articles ++ [a],
             nextArticleId := db.nextArticleId + 1 }, a)

def insertArticle (db : DB) (title content sha256 : String) :
    Except StoreErr (DB × Article) :=
  if db.articles.any (fun b => b.sha256 == sha256) then
    .error .conflict
  else
    .ok (appendArticle db title content sha256)

/-- `.from('articles').update({ points: v }).eq('id', aid)`. -/
def updateArticlePoints (db : DB) (aid : Nat) (v : ℚ) : DB :=
  { db with articles :=
      db.articles.map (fun a => if a.id == aid then { a with points := some v } else a) }

/-- `.from('articles').update({ certificate_id: cid }).eq('id', aid)`. -/
def updateCertificateId (db : DB) (aid : Nat) (cid : String) : DB :=
  { db with articles :=
      db.articles.map (fun a => if a.id == aid then { a with certificate_id := some cid } else a) }

/-- `.from('members').update({ points: v }).eq('id', mid)`. -/
def updateMemberPoints (db : DB) (mid : Nat) (v : ℚ) : DB :=
  { db with members :=
      db.members.map (fun m => if m.id == mid then { m with points := some v } else m) }

/-- JavaScript `s || d` for strings: the default kicks in on `null`/`undefined`
and on the empty string (both falsy).  Used for `commenter_name || 'Anonymous'`. -/
def jsOr (s : Option String) (d : String) : String :=
  match s with
  | some t => if t == "" then d else t
  | none => d

/-- ASCII lowercasing, the model of `String.prototype.toLowerCase` on the
`'up'` / `'down'` direction strings. -/
def lowerAscii (s : String) : String :=
  String.mk (s.data.map Char.toLower)

/-- The comment points formula of `server.js` lines 211-212 (identical in
`part_000` lines 61-65 and `part_002` lines 166-171):
`Number(((comment.length || 0) / 100 + citations * 2 + (identifying ? 5 : 0)).toFixed(2))`. -/
def computePoints (commentLen : Nat) (citations : ℚ) (identifying : Bool) : ℚ :=
  round2 ((commentLen : ℚ) / 100 + citations * 2 + (if identifying then 5 else 0))

/-- The `/add-comment` request body of `server.js`.  `citations_count` is the
value after `Number(citations_count) || 0` up to the NaN case: `none` stands
for an absent or non-numeric field (coerced to 0), `some q` for the numeric
value `q` (note `server.js` performs no clamping of negative values).
`spend_points` distinguishes an absent field (`none`, JS `null`/`undefined`),
a present non-finite field (`some none`, JS NaN/Infinity after `Number(...)`),
and a present finite number (`some (some q)`). -/
structure AddCommentReq where
  article_id : Option Nat := none
  commenter_name : Option String := none
  comment : String := ""
  citations_count : Option ℚ := none
  has_identifying_info : Bool := false
  member_id : Option Nat := none
  spend_points : Option (Option ℚ) := none
  spend_direction : Option String := none
deriving Repr, DecidableEq

/-- Outcome of the optional spend validation block of `server.js`
(lines 178-209). -/
inductive SpendCheck where
  | invalid (msg : String)
  | ok (amount : ℚ) (sign : ℤ) (memberRow : Option Member)
deriving Repr, DecidableEq

/-- `Number(spend_points)` as a finite rational: an absent field coerces to
NaN (`none`), a present non-finite field stays `none`, a finite number is
`some q`. -/
def parsedSpendOf (req : AddCommentReq) : Option ℚ :=
  req.spend_points.bind id

/-- `server.js` lines 178-209: the spend validation performed when any of
`spend_points`, `spend_direction`, `member_id` is non-null. -/
def validateSpend (db : DB) (req : AddCommentReq) : SpendCheck :=
  if req.spend_points.isSome || req.spend_direction.isSome || req.member_id.isSome then
    let dir := lowerAscii (req.spend_direction.getD "")
    match parsedSpendOf req with
    | none => .invalid "spend_points must be a positive number"
    | some amt =>
      if amt ≤ 0 then .invalid "spend_points must be a positive number"
      else if dir != "up" && dir != "down" then
        .invalid "spend_direction must be 'up' or 'down'"
      else
        let sign : ℤ := if dir == "down" then -1 else 1
        match req.member_id with
        | none => .ok amt sign none
        | some mid =>
          match findMember db mid with
          | none => .invalid "Member not found"
          | some m =>
            match m.points with
            | none => .invalid "Insufficient member points"
            | some bal =>
              if bal < amt then .invalid "Insufficient member points"
              else .ok amt sign (some m)
  else
    .ok 0 0 none

/-- Failure injection for the store calls made after the comment insert of
`server.js` `/add-comment` (the real calls go to the hosted store and can fail
independently; the handler's control flow on each failure is what is modelled). -/
structure StoreFaults where
  insertErr : Bool := false
  updateErr : Bool := false
  memberUpdateErr : Bool := false
deriving Repr, DecidableEq

/-- The fault-free store. -/
def noFaults : StoreFaults := {}

/-- The `/add-comment` response of `server.js`: 400, 500, or
`res.json({ success: true, points, spend_applied, comment: inserted })`. -/
inductive AddCommentResp where
  | badRequest (msg : String)
  | serverError (msg : String)
  | ok (points : ℚ) (spend_applied : ℚ) (comment : Comment)
deriving Repr, DecidableEq

/-- The `comments` row built and inserted by `server.js` `/add-comment`
(lines 215-225). -/
def insertedComment (db : DB) (req : AddCommentReq) : Comment :=
  { id := db.nextCommentId,
    article_id := req.article_id.getD 0,
    commenter_name := jsOr req.commenter_name "Anonymous",
    comment := req.comment,
    citations_count := req.citations_count.getD 0,
    has_identifying_info := req.has_identifying_info,
    points := computePoints req.comment.length (req.citations_count.getD 0)
                req.has_identifying_info }

/-- The store state after the comment insert of `server.js` `/add-comment`. -/
def insertComment (db : DB) (req : AddCommentReq) : DB :=
  { db with comments := db.comments ++ [insertedComment db req],
            nextCommentId := db.nextCommentId + 1 }

/-- `server.js` lines 236-242: the current article total, 0 when the row is
missing or its `points` is not a number. -/
def currentPointsOf (db : DB) (aid : Nat) : ℚ :=
  match findArticleById db aid with
  | some a => a.points.getD 0
  | none => 0

/-- `server.js` `/add-comment` (lines 168-273): required-field check, optional
spend validation, points formula, comment insert, non-fatal article total
update (current total defaulting to 0 unless the row has a numeric `points`),
non-fatal member deduction floored at 0. -/
def addComment (faults : StoreFaults) (db : DB) (req : AddCommentReq) :
    AddCommentResp × DB :=
  if req.article_id.isNone || req.comment == "" then
    (.badRequest "article_id and comment are required", db)
  else
    match validateSpend db req with
    | .invalid msg => (.badRequest msg, db)
    | .ok spendAmount spendSign memberRow =>
      let points := computePoints req.comment.length (req.citations_count.getD 0)
                      req.has_identifying_info
      if faults.insertErr then
        (.serverError "DB insert error", db)
      else
        let db1 := insertComment db req
        let spendAdjustment : ℚ :=
          if spendSign ≠ 0 then (spendSign : ℚ) * spendAmount else 0
        let newPoints := round2 (currentPointsOf db1 (req.article_id.getD 0) +
                           points + spendAdjustment)
        let db2 := if faults.updateErr then db1
                   else updateArticlePoints db1 (req.article_id.getD 0) newPoints
        let db3 :=
          match memberRow with
          | some m =>
            if spendSign ≠ 0 then
              if faults.memberUpdateErr then db2
              else updateMemberPoints db2 m.id
                     (max 0 (round2 (m.points.getD 0 - spendAmount)))
            else db2
          | none => db2
        (.ok points spendAdjustment (insertedComment db req), db3)

/-- The `/add-comment` response of the second server in `part_002` (lines
156-222): 400, 500, or `res.json({ success: true, points, comment })`. -/
inductive P002AddCommentResp where
  | badRequest (msg : String)
  | serverError (msg : String)
  | ok (points : ℚ) (comment : P002Comment)
deriving Repr, DecidableEq

/-- The `comments` row built and inserted by the second server of `part_002`
(lines 177-186): no `has_identifying_info` column. -/
def p002InsertedComment (db : DB) (req : AddCommentReq) : P002Comment :=
  { id := db.nextCommentId,
    article_id := req.article_id.getD 0,
    commenter_name := jsOr req.commenter_name "Anonymous",
    comment := req.comment,
    citations_count := req.citations_count.getD 0,
    points := computePoints req.comment.length (req.citations_count.getD 0)
                req.has_identifying_info }

/-- The store state after the comment insert of the `part_002` second server. -/
def p002InsertComment (db : DB) (req : AddCommentReq) : DB :=
  { db with p002comments := db.p002comments ++ [p002InsertedComment db req],
            nextCommentId := db.nextCommentId + 1 }

/-- `part_002` second server `/add-comment` (lines 156-222): same points
formula, comment insert (without the `has_identifying_info` column), then a
fetch-and-update of the article total where BOTH a fetch error and an update
error return 500 — after the comment has already been inserted.  Note the new
total `Number(articleData.points || 0) + points` is not re-rounded here. -/
def addComment_p002 (fetchErr updateErr : Bool) (db : DB) (req : AddCommentReq) :
    P002AddCommentResp × DB :=
  if req.article_id.isNone || req.comment == "" then
    (.badRequest "Article ID and comment are required.", db)
  else
    let points := computePoints req.comment.length (req.citations_count.getD 0)
                    req.has_identifying_info
    let db1 := p002InsertComment db req
    match (if fetchErr then none else findArticleById db1 (req.article_id.getD 0)) with
    | none => (.serverError "error fetching article", db1)
    | some a =>
      let newPoints : ℚ := a.points.getD 0 + points
      if updateErr then (.serverError "error updating article points", db1)
      else (.ok points (p002InsertedComment db req),
            updateArticlePoints db1 (req.article_id.getD 0) newPoints)

/-- The fields of `server.js`'s `safeArticle` response that the model tracks.
The source also copies `authors`, `original_link`, `bibliography`, `file_url`,
`created_at`, `content` — and deliberately excludes `sha256` ("exclude
sensitive data like sha256"), which is why no field here is a fingerprint. -/
structure SafeArticle where
  id : Nat
  title : String
  points : Option ℚ
deriving Repr, DecidableEq

/-- Upload responses across the revisions: `part_000`/`part_002` respond with
the hash only (`res.json({ hash })` / `res.json({ success: true, hash })`),
`server.js` responds with `safeArticle` (no fingerprint); every store error is
surfaced as an HTTP 500. -/
inductive UploadResp where
  | badRequest (msg : String)
  | storeFailure (status : Nat) (e : StoreErr)
  | okHash (hash : String)
  | okArticle (article : SafeArticle)
deriving Repr, DecidableEq

/-- `part_002` first server `/upload-article` (lines 23-34): hash of the
content alone, no required-field validation, insert, respond `{ hash }`. -/
def uploadArticle_p002 (sha : String → String) (db : DB) (title content : String) :
    UploadResp × DB :=
  let hash := sha content
  match insertArticle db title content hash with
  | .error e => (.storeFailure 500 e, db)
  | .ok (db', _) => (.okHash hash, db')

/-- `part_000` `/upload-article` (lines 23-47): requires title and content,
hashes `title + content + Date.now()`, responds `{ success: true, hash }`.
`now` is the decimal rendering of `Date.now()` that JavaScript's `+`
concatenates into the hashed string. -/
def uploadArticle_p000 (sha : String → String) (now : String) (db : DB)
    (title content : String) : UploadResp × DB :=
  if title == "" || content == "" then
    (.badRequest "Title and content are required.", db)
  else
    let hash := sha (title ++ content ++ now)
    match insertArticle db title content hash with
    | .error e => (.storeFailure 500 e, db)
    | .ok (db', _) => (.okHash hash, db')

/-- `server.js` `/upload` (lines 34-107): requires title and file, hashes the
file buffer alone, inserts, and on success responds with `safeArticle` — the
inserted row minus its `sha256`.  Any store error is caught and mapped to a
blanket 500 (`'Error uploading article.'`), so a fingerprint-uniqueness
conflict is not distinguished from any other store failure at the HTTP layer. -/
def uploadArticle_server (sha : String → String) (db : DB) (title : String)
    (file : Option String) : UploadResp × DB :=
  match file with
  | none => (.badRequest "Title and file are required", db)
  | some buf =>
    if title == "" then (.badRequest "Title and file are required", db)
    else
      let hash := sha buf
      match insertArticle db title "" hash with
      | .error e => (.storeFailure 500 e, db)
      | .ok (db', a) => (.okArticle { id := a.id, title := a.title, points := a.points }, db')

/-- `part_001` `/verify-article` response: 404, or the JSON certificate view. -/
inductive VerifyResp where
  | notFound
  | okCert (title : String) (article_id : Nat) (message : String)
deriving Repr, DecidableEq

/-- `part_001` `/verify-article` (lines 40-65): single-row lookup by sha256;
an error or missing row yields 404; otherwise the certificate view.  No write
is performed on any path. -/
def verifyArticle (db : DB) (fp : String) : VerifyResp × DB :=
  match findBySha db fp with
  | none => (.notFound, db)
  | some a =>
    (.okCert a.title a.id
      "This certificate verifies that you are the original publisher of this article.", db)

/-- `part_001` `/verify-article-pdf` response: 404, or the PDF with the fields
the document embeds. -/
inductive VerifyPdfResp where
  | notFound
  | pdf (title : String) (article_id : Nat) (certificate_id : String)
        (filename : String) (verifiedAt : Nat)
deriving Repr, DecidableEq

/-- `part_001` `/verify-article-pdf` (lines 92-144): single-row lookup by
sha256 (miss → 404, no write); then `let certificateId = articleData.certificate_id;
if (!certificateId) { certificateId = uuidv4(); update(...) }` — the JS falsy
test treats NULL and the empty string alike, modelled by `getD ""`.  `freshId`
stands for the `uuidv4()` draw and `now` for `new Date()`. -/
def verifyArticlePdf (db : DB) (fp : String) (freshId : String) (now : Nat) :
    VerifyPdfResp × DB :=
  match findBySha db fp with
  | none => (.notFound, db)
  | some a =>
    let existing := a.certificate_id.getD ""
    if existing == "" then
      (.pdf a.title a.id freshId ("certificate_" ++ toString a.id ++ ".pdf") now,
       updateCertificateId db a.id freshId)
    else
      (.pdf a.title a.id existing ("certificate_" ++ toString a.id ++ ".pdf") now, db)

/-! ## Shared concrete fixtures -/

/-- A body of `n` identical characters, for concrete scenarios. -/
def longBody (n : Nat) : String :=
  String.mk (List.replicate n 'x')

/-- An empty store. -/
def emptyDB : DB := {}

/-- A small concrete add-comment request with one citation and identity
disclosed, no spend fields. -/
def reqPlain : AddCommentReq :=
  { article_id := some 1, comment := "hi", citations_count := some 1,
    has_identifying_info := true }

/-! ## C2 — comment score formula -/

/-- C2: for every comment submission with body `b`, citation count `c ≥ 0` and
identity-disclosure flag `d`, `server.js` `/add-comment` stores and returns the
score `round2(length b / 100 + c * 2 + (d ? 5 : 0))`; in particular a
200-character body with 1 citation and identity disclosed scores exactly 9. -/
theorem c2_comment_score_is_round2_formula :
    (∀ (db : DB) (req : AddCommentReq) (c : ℚ),
      req.comment ≠ "" → req.article_id.isSome → req.citations_count = some c →
      0 ≤ c →
      req.spend_points = none → req.spend_direction = none → req.member_id = none →
      (addComment noFaults db req).1 =
        .ok (round2 ((req.comment.length : ℚ) / 100 + c * 2 +
               (if req.has_identifying_info then 5 else 0))) 0
          { id := db.nextCommentId,
            article_id := req.article_id.getD 0,
            commenter_name := jsOr req.commenter_name "Anonymous",
            comment := req.comment,
            citations_count := c,
            has_identifying_info := req.has_identifying_info,
            points := round2 ((req.comment.length : ℚ) / 100 + c * 2 +
                        (if req.has_identifying_info then 5 else 0)) } ∧
      (addComment noFaults db req).2.comments =
        db.comments ++
          [{ id := db.nextCommentId,
             article_id := req.article_id.getD 0,
             commenter_name := jsOr req.commenter_name "Anonymous",
             comment := req.comment,
             citations_count := c,
             has_identifying_info := req.has_identifying_info,
             points := round2 ((req.comment.length : ℚ) / 100 + c * 2 +
                         (if req.has_identifying_info then 5 else 0)) }]) ∧
    computePoints 200 1 true = 9 := by
  constructor
  · intro db req c hc hid hcit hnn hsp hsd hmid
    obtain ⟨aid, haid⟩ := Option.isSome_iff_exists.mp hid
    simp [addComment, validateSpend, computePoints, insertedComment, insertComment,
      currentPointsOf, hsp, hsd, hmid, hcit, hc, haid, noFaults, updateArticlePoints]
  · norm_num [computePoints]
    rw [show (9:ℚ) = ((9:ℤ):ℚ) by norm_num, round2_intCast]

/-- Closed instance of `c2_comment_score_is_round2_formula` at a concrete
store and request. -/
theorem c2_comment_score_is_round2_formula_witness :
    (addComment noFaults emptyDB reqPlain).1 =
      .ok (round2 ((("hi".length : ℚ)) / 100 + 1 * 2 + 5))
        0
        { id := 1, article_id := 1, commenter_name := "Anonymous",
          comment := "hi", citations_count := 1, has_identifying_info := true,
          points := round2 ((("hi".length : ℚ)) / 100 + 1 * 2 + 5) } := by
  have h := (c2_comment_score_is_round2_formula.1 emptyDB reqPlain 1
    (by decide) (by decide) rfl (by norm_num) rfl rfl rfl).1
  simpa [reqPlain, emptyDB, jsOr] using h

/-! ## C5 — score non-negativity and monotonicity -/

/-- C5 (amended): the score is non-negative whenever the citation count is
non-negative (the code performs no clamping of negative citation counts), and
the score is monotonically non-decreasing in body length, citation count, and
the identity-disclosure flag. -/
theorem c5_score_nonneg_and_monotone :
    (∀ (len : Nat) (c : ℚ) (d : Bool), 0 ≤ c → 0 ≤ computePoints len c d) ∧
    (∀ (len len' : Nat) (c : ℚ) (d : Bool), len ≤ len' →
      computePoints len c d ≤ computePoints len' c d) ∧
    (∀ (len : Nat) (c c' : ℚ) (d : Bool), c ≤ c' →
      computePoints len c d ≤ computePoints len c' d) ∧
    (∀ (len : Nat) (c : ℚ), computePoints len c false ≤ computePoints len c true) := by
  refine ⟨?_, ?_, ?_, ?_⟩
  · intro len c d h
    apply round2_nonneg
    have hl : (0:ℚ) ≤ (len : ℚ) := by positivity
    have hd : (0:ℚ) ≤ (if d then (5:ℚ) else 0) := by
      cases d <;> norm_num
    linarith
  · intro len len' c d h
    apply round2_mono
    have : (len : ℚ) ≤ (len' : ℚ) := by exact_mod_cast h
    linarith
  · intro len c c' d h
    apply round2_mono
    linarith
  · intro len c
    apply round2_mono
    norm_num

/-- Closed instance of `c5_score_nonneg_and_monotone`. -/
theorem c5_score_nonneg_and_monotone_witness :
    0 ≤ computePoints 3 2 true ∧
    computePoints 3 2 true ≤ computePoints 4 2 true ∧
    computePoints 3 2 true ≤ computePoints 3 3 true ∧
    computePoints 3 2 false ≤ computePoints 3 2 true :=
  ⟨c5_score_nonneg_and_monotone.1 3 2 true (by norm_num),
   c5_score_nonneg_and_monotone.2.1 3 4 2 true (by norm_num),
   c5_score_nonneg_and_monotone.2.2.1 3 2 3 true (by norm_num),
   c5_score_nonneg_and_monotone.2.2.2 3 2⟩

/-- C5 fails as stated: `server.js` line 175 (`Number(citations_count) || 0`)
does not clamp negative citation counts, so a 100-character comment with
`citations_count = -3` is scored `round2(1 - 6) = -5 < 0`, and the handler
stores and returns that negative score. -/
theorem c5_score_nonneg_counterexample :
    computePoints 100 (-3) false < 0 ∧
    (addComment noFaults emptyDB
        { article_id := some 1, comment := longBody 100,
          citations_count := some (-3) }).1 =
      .ok (-5) 0
        { id := 1, article_id := 1, commenter_name := "Anonymous",
          comment := longBody 100, citations_count := -3,
          has_identifying_info := false, points := -5 } := by
  have hlen : (longBody 100).length = 100 := by decide
  have hcp : computePoints 100 (-3) false = -5 := by
    norm_num [computePoints]
    rw [show (-5:ℚ) = ((-5:ℤ):ℚ) by norm_num, round2_intCast]
  constructor
  · rw [hcp]; norm_num
  · have hne : longBody 100 ≠ "" := by decide
    simp [addComment, validateSpend, insertedComment, insertComment, currentPointsOf,
      noFaults, emptyDB, updateArticlePoints, jsOr, hlen, hcp, hne]

/-! ## C7 — insufficient balance fails atomically -/

/-- C7: a comment submission carrying a well-formed spend request whose spender
has a stored balance below the spend amount fails with the insufficient-balance
error, and the store is completely unchanged: no comment insert, no article
total update, no balance change (`server.js` performs the balance check before
any write). -/
theorem c7_insufficient_balance_is_atomic :
    ∀ (faults : StoreFaults) (db : DB) (req : AddCommentReq) (mid : Nat)
      (m : Member) (amt bal : ℚ),
      req.article_id.isSome → req.comment ≠ "" →
      req.spend_points = some (some amt) → 0 < amt →
      (lowerAscii (req.spend_direction.getD "") = "up" ∨
       lowerAscii (req.spend_direction.getD "") = "down") →
      req.member_id = some mid → findMember db mid = some m →
      m.points = some bal → bal < amt →
      addComment faults db req = (.badRequest "Insufficient member points", db) := by
  intro faults db req mid m amt bal hid hc hsp hpos hdir hmid hm hbal hlt
  obtain ⟨aid, haid⟩ := Option.isSome_iff_exists.mp hid
  rcases hdir with hdir | hdir <;>
    simp [addComment, validateSpend, parsedSpendOf, haid, hc, hsp, hmid, hm,
      hbal, hdir, not_le.mpr hpos, not_le.mpr hlt, hlt]

/-- Closed instance of `c7_insufficient_balance_is_atomic`: the spec scenario,
amount 10 spent down with a stored balance of 5. -/
theorem c7_insufficient_balance_is_atomic_witness :
    addComment noFaults
      { members := [{ id := 7, points := some 5 }] }
      { article_id := some 1, comment := "hi", spend_points := some (some 10),
        spend_direction := some "down", member_id := some 7 } =
    (.badRequest "Insufficient member points",
     { members := [{ id := 7, points := some 5 }] }) := by
  apply c7_insufficient_balance_is_atomic noFaults _ _ 7 { id := 7, points := some 5 } 10 5
  · decide
  · decide
  · rfl
  · norm_num
  · right; decide
  · rfl
  · simp [findMember, getSingle]
  · rfl
  · norm_num

/-! ## C10 — presence of any spend field triggers full spend validation -/

/-- C10: in `server.js` `/add-comment`, if any of `spend_points`,
`spend_direction`, `member_id` is present, the request is rejected with a
validation error — before any comment is stored — unless `spend_points` parses
to a finite number strictly greater than 0 and the lowercased direction is
`"up"` or `"down"`; in particular a request supplying only `member_id` is
rejected. -/
theorem c10_spend_fields_trigger_validation :
    (∀ (faults : StoreFaults) (db : DB) (req : AddCommentReq),
      req.article_id.isSome → req.comment ≠ "" →
      (req.spend_points.isSome ∨ req.spend_direction.isSome ∨ req.member_id.isSome) →
      (∀ q : ℚ, parsedSpendOf req = some q → 0 < q →
        lowerAscii (req.spend_direction.getD "") ≠ "up" ∧
        lowerAscii (req.spend_direction.getD "") ≠ "down") →
      ∃ msg, (msg = "spend_points must be a positive number" ∨
              msg = "spend_direction must be 'up' or 'down'") ∧
             addComment faults db req = (.badRequest msg, db)) ∧
    (∀ (faults : StoreFaults) (db : DB) (req : AddCommentReq) (mid : Nat),
      req.article_id.isSome → req.comment ≠ "" →
      req.spend_points = none → req.spend_direction = none → req.member_id = some mid →
      addComment faults db req =
        (.badRequest "spend_points must be a positive number", db)) := by
  constructor
  · intro faults db req hid hc hpresent hbad
    obtain ⟨aid, haid⟩ := Option.isSome_iff_exists.mp hid
    have hpres : (req.spend_points.isSome || req.spend_direction.isSome ||
        req.member_id.isSome) = true := by
      rcases hpresent with h | h | h <;> simp [h]
    rcases hps : parsedSpendOf req with _ | q
    · refine ⟨"spend_points must be a positive number", Or.inl rfl, ?_⟩
      simp [addComment, validateSpend, haid, hc, hpres, hps]
    · by_cases hq : q ≤ 0
      · refine ⟨"spend_points must be a positive number", Or.inl rfl, ?_⟩
        simp [addComment, validateSpend, haid, hc, hpres, hps, hq]
      · obtain ⟨h1, h2⟩ := hbad q hps (lt_of_not_le hq)
        refine ⟨"spend_direction must be 'up' or 'down'", Or.inr rfl, ?_⟩
        simp [addComment, validateSpend, haid, hc, hpres, hps, hq, h1, h2]
  · intro faults db req mid hid hc hsp hsd hmid
    obtain ⟨aid, haid⟩ := Option.isSome_iff_exists.mp hid
    simp [addComment, validateSpend, parsedSpendOf, haid, hc, hsp, hsd, hmid]

/-- Closed instance of `c10_spend_fields_trigger_validation`: a request that
supplies only `member_id` is rejected before any write. -/
theorem c10_spend_fields_trigger_validation_witness :
    addComment noFaults emptyDB
      { article_id := some 1, comment := "hi", member_id := some 7 } =
    (.badRequest "spend_points must be a positive number", emptyDB) := by
  apply c10_spend_fields_trigger_validation.2 noFaults emptyDB _ 7
  · decide
  · decide
  · rfl
  · rfl
  · rfl

/-! ## Lemmas about row updates and single-row lookups -/

theorem filter_map_comm {α : Type} (f : α → α) (p : α → Bool)
    (hp : ∀ a, p (f a) = p a) :
    ∀ l : List α, (l.map f).filter p = (l.filter p).map f := by
  intro l
  induction l with
  | nil => rfl
  | cons a t ih =>
    simp only [List.map_cons, List.filter_cons, hp a]
    by_cases h : p a = true
    · simp [h, ih]
    · simp [h, ih]

theorem filter_singleton_pred {α : Type} {p : α → Bool} {l : List α} {a : α}
    (h : l.filter p = [a]) : p a = true := by
  have : a ∈ l.filter p := by rw [h]; exact List.mem_singleton_self a
  exact (List.mem_filter.mp this).2

theorem findArticleById_update {db : DB} {aid : Nat} {a : Article} (v : ℚ)
    (h : findArticleById db aid = some a) :
    findArticleById (updateArticlePoints db aid v) aid =
      some { a with points := some v } := by
  have hf : db.articles.filter (fun x => x.id == aid) = [a] :=
    getSingle_eq_some.mp h
  have hpa := filter_singleton_pred hf
  simp only at hpa
  simp only [findArticleById, updateArticlePoints]
  rw [filter_map_comm (fun x : Article => if x.id == aid then { x with points := some v } else x)
        (fun x : Article => x.id == aid)
        (by
          intro x
          by_cases hx : (x.id == aid) = true
          · simp [hx]
          · simp [hx]),
      hf]
  have hpa2 : a.id = aid := by simpa using hpa
  simp [hpa2, getSingle]

theorem findMember_update {db : DB} {mid : Nat} {m : Member} (v : ℚ)
    (h : findMember db mid = some m) :
    findMember (updateMemberPoints db mid v) mid =
      some { m with points := some v } := by
  have hf : db.members.filter (fun x => x.id == mid) = [m] :=
    getSingle_eq_some.mp h
  have hpm := filter_singleton_pred hf
  simp only at hpm
  simp only [findMember, updateMemberPoints]
  rw [filter_map_comm (fun x : Member => if x.id == mid then { x with points := some v } else x)
        (fun x : Member => x.id == mid)
        (by
          intro x
          by_cases hx : (x.id == mid) = true
          · simp [hx]
          · simp [hx]),
      hf]
  have hpm2 : m.id = mid := by simpa using hpm
  simp [hpm2, getSingle]

theorem findMember_id_eq {db : DB} {mid : Nat} {m : Member}
    (h : findMember db mid = some m) : m.id = mid := by
  have hf : db.members.filter (fun x => x.id == mid) = [m] :=
    getSingle_eq_some.mp h
  have hpm := filter_singleton_pred hf
  simp only at hpm
  simpa using hpm

theorem findArticleById_insertComment (db : DB) (req : AddCommentReq) (aid : Nat) :
    findArticleById (insertComment db req) aid = findArticleById db aid := rfl

theorem findMember_insertComment (db : DB) (req : AddCommentReq) (mid : Nat) :
    findMember (insertComment db req) mid = findMember db mid := rfl

theorem findMember_updateArticlePoints (db : DB) (aid : Nat) (v : ℚ) (mid : Nat) :
    findMember (updateArticlePoints db aid v) mid = findMember db mid := rfl

theorem findArticleById_updateMemberPoints (db : DB) (mid : Nat) (v : ℚ) (aid : Nat) :
    findArticleById (updateMemberPoints db mid v) aid = findArticleById db aid := rfl

/-! ## C4 — folding a score into the article total, spend adjustment,
member deduction -/

/-- An article row used in concrete aggregation scenarios. -/
def artA : Article :=
  { id := 1, title := "A", content := "h", sha256 := "f", points := some 0 }

/-- A store with one article (total 0) and one member with balance 20. -/
def c4db : DB := { articles := [artA], members := [{ id := 7, points := some 20 }] }

/-- C4 (amended): on a successful comment submission the article's stored
total becomes `round2(current_total + score + spend_adjustment)` (with
`current_total` read as 0 when the row has no numeric total, and the
adjustment `±amount` by direction); a supplied spender's balance becomes
`max 0 (round2(balance - amount))` — the deduction is rounded to two decimal
places before the floor at 0. -/
theorem c4_total_aggregation_and_deduction :
    (∀ (db : DB) (req : AddCommentReq) (c : ℚ) (aid : Nat) (a : Article),
      req.article_id = some aid → req.comment ≠ "" → req.citations_count = some c →
      req.spend_points = none → req.spend_direction = none → req.member_id = none →
      findArticleById db aid = some a →
      findArticleById (addComment noFaults db req).2 aid =
        some { a with points := some (round2 (a.points.getD 0 +
          computePoints req.comment.length c req.has_identifying_info)) }) ∧
    (∀ (db : DB) (req : AddCommentReq) (c : ℚ) (aid mid : Nat) (a : Article)
       (m : Member) (amt bal : ℚ) (s : ℤ),
      req.article_id = some aid → req.comment ≠ "" → req.citations_count = some c →
      req.spend_points = some (some amt) → 0 < amt →
      ((lowerAscii (req.spend_direction.getD "") = "up" ∧ s = 1) ∨
       (lowerAscii (req.spend_direction.getD "") = "down" ∧ s = -1)) →
      req.member_id = some mid →
      findMember db mid = some m → m.points = some bal → amt ≤ bal →
      findArticleById db aid = some a →
      findArticleById (addComment noFaults db req).2 aid =
        some { a with points := some (round2 (a.points.getD 0 +
          computePoints req.comment.length c req.has_identifying_info + (s:ℚ) * amt)) } ∧
      findMember (addComment noFaults db req).2 mid =
        some { m with points := some (max 0 (round2 (bal - amt))) }) := by
  constructor
  · intro db req c aid a haid hc hcit hsp hsd hmid hfa
    have h1 : findArticleById (insertComment db req) aid = some a := hfa
    have hcur : currentPointsOf (insertComment db req) aid = a.points.getD 0 := by
      unfold currentPointsOf
      rw [h1]
    have hrun : (addComment noFaults db req).2 =
        updateArticlePoints (insertComment db req) aid
          (round2 (a.points.getD 0 +
            computePoints req.comment.length c req.has_identifying_info)) := by
      simp [addComment, validateSpend, haid, hc, hcit, hsp, hsd, hmid, noFaults, hcur]
    rw [hrun]
    exact findArticleById_update _ h1
  · intro db req c aid mid a m amt bal s haid hc hcit hsp hamt hdir hmid hm hbal hle hfa
    have h1 : findArticleById (insertComment db req) aid = some a := hfa
    have hm1 : findMember (insertComment db req) mid = some m := hm
    have hcur : currentPointsOf (insertComment db req) aid = a.points.getD 0 := by
      unfold currentPointsOf
      rw [h1]
    have hmeq : m.id = mid := findMember_id_eq hm
    have hrun : (addComment noFaults db req).2 =
        updateMemberPoints
          (updateArticlePoints (insertComment db req) aid
            (round2 (a.points.getD 0 +
              computePoints req.comment.length c req.has_identifying_info + (s:ℚ) * amt)))
          mid (max 0 (round2 (bal - amt))) := by
      rcases hdir with ⟨hdir, hs⟩ | ⟨hdir, hs⟩ <;> subst hs <;>
        simp [addComment, validateSpend, parsedSpendOf, haid, hc, hcit, hsp, hmid,
          hm, hbal, hdir, hmeq, not_le.mpr hamt, not_lt.mpr hle, noFaults, hcur]
    refine ⟨?_, ?_⟩
    · rw [hrun, findArticleById_updateMemberPoints]
      exact findArticleById_update _ h1
    · rw [hrun]
      exact findMember_update _ hm1

/-- Closed instance of `c4_total_aggregation_and_deduction`: spending 10 down
from a balance of 20 on an article with total 0. -/
theorem c4_total_aggregation_and_deduction_witness :
    findArticleById (addComment noFaults c4db
        { article_id := some 1, comment := "hi", citations_count := some 0,
          spend_points := some (some 10), spend_direction := some "down",
          member_id := some 7 }).2 1 =
      some { id := 1, title := "A", content := "h", sha256 := "f",
             certificate_id := none,
             points := some (round2 ((0:ℚ) +
               computePoints 2 0 false + ((-1 : ℤ) : ℚ) * 10)) } ∧
    findMember (addComment noFaults c4db
        { article_id := some 1, comment := "hi", citations_count := some 0,
          spend_points := some (some 10), spend_direction := some "down",
          member_id := some 7 }).2 7 =
      some { id := 7, points := some (max 0 (round2 ((20:ℚ) - 10))) } :=
  c4_total_aggregation_and_deduction.2 c4db
    { article_id := some 1, comment := "hi", citations_count := some 0,
      spend_points := some (some 10), spend_direction := some "down",
      member_id := some 7 }
    0 1 7 artA { id := 7, points := some 20 } 10 20 (-1)
    rfl (by decide) rfl rfl (by norm_num) (Or.inr ⟨by decide, rfl⟩) rfl
    rfl rfl (by norm_num) rfl

/-- C4 fails as stated on sub-cent amounts: spending `1/250` (0.004) up from a
balance of 20 leaves the stored balance at exactly 20, because `server.js`
line 255 rounds `memberRow.points - spendAmount` to two decimals before the
floor — the balance is not reduced by the amount. -/
theorem c4_balance_reduction_counterexample :
    findMember (addComment noFaults c4db
        { article_id := some 1, comment := "hi", citations_count := some 0,
          spend_points := some (some (1/250)), spend_direction := some "up",
          member_id := some 7 }).2 7 =
      some { id := 7, points := some 20 } ∧
    (20 : ℚ) - 1/250 ≠ 20 := by
  have h1 : max 0 (round2 ((20:ℚ) - 1/250)) = 20 := by
    rw [round2_eq_div ((20:ℚ) - 1/250) 2000 (by norm_num) (by norm_num) (by norm_num)]
    norm_num
  constructor
  · have hrun : (addComment noFaults c4db
        { article_id := some 1, comment := "hi", citations_count := some 0,
          spend_points := some (some (1/250)), spend_direction := some "up",
          member_id := some 7 }).2 =
        updateMemberPoints
          (updateArticlePoints (insertComment c4db
            { article_id := some 1, comment := "hi", citations_count := some 0,
              spend_points := some (some (1/250)), spend_direction := some "up",
              member_id := some 7 }) 1
            (round2 (currentPointsOf (insertComment c4db
              { article_id := some 1, comment := "hi", citations_count := some 0,
                spend_points := some (some (1/250)), spend_direction := some "up",
                member_id := some 7 }) 1 + computePoints 2 0 false + ((1 : ℤ) : ℚ) * (1/250))))
          7 (max 0 (round2 ((20:ℚ) - 1/250))) := by
      have e1 : lowerAscii "up" = "up" := by decide
      have e2 : ("up" : String) ≠ "down" := by decide
      have e3 : ("hi" : String) ≠ "" := by decide
      have e4 : ("hi" : String).length = 2 := rfl
      norm_num [addComment, validateSpend, parsedSpendOf, noFaults, findMember,
        c4db, getSingle, e1, e2, e3, e4]
    rw [hrun, h1]
    have : findMember (updateArticlePoints (insertComment c4db
        { article_id := some 1, comment := "hi", citations_count := some 0,
          spend_points := some (some (1/250)), spend_direction := some "up",
          member_id := some 7 }) 1
        (round2 (currentPointsOf (insertComment c4db
          { article_id := some 1, comment := "hi", citations_count := some 0,
            spend_points := some (some (1/250)), spend_direction := some "up",
            member_id := some 7 }) 1 + computePoints 2 0 false + ((1 : ℤ) : ℚ) * (1/250)))) 7 =
        some { id := 7, points := some 20 } := rfl
    exact findMember_update 20 this
  · norm_num

/-! ## C8 — behaviour when the article-total update fails after the comment
insert -/

theorem findArticleById_p002Insert (db : DB) (req : AddCommentReq) (aid : Nat) :
    findArticleById (p002InsertComment db req) aid = findArticleById db aid := rfl

/-- C8 (amended): when the comment insert succeeds and the article-total
update fails, `server.js` treats the failure as non-fatal — it returns the
success response carrying the stored comment and its score, the comment stays
in the store, and the article row is left unchanged; the earlier `part_002`
revision also keeps the inserted comment (nothing is rolled back) but reports
a 500 error instead of success. -/
theorem c8_update_failure_nonfatal_in_server :
    (∀ (db : DB) (req : AddCommentReq) (c : ℚ),
      req.article_id.isSome → req.comment ≠ "" → req.citations_count = some c →
      req.spend_points = none → req.spend_direction = none → req.member_id = none →
      addComment { updateErr := true } db req =
        (.ok (computePoints req.comment.length c req.has_identifying_info) 0
           (insertedComment db req),
         insertComment db req) ∧
      (insertComment db req).comments = db.comments ++ [insertedComment db req] ∧
      (insertComment db req).articles = db.articles) ∧
    (∀ (db : DB) (req : AddCommentReq) (aid : Nat) (a : Article),
      req.article_id = some aid → req.comment ≠ "" →
      findArticleById db aid = some a →
      addComment_p002 false true db req =
        (.serverError "error updating article points", p002InsertComment db req) ∧
      (p002InsertComment db req).p002comments =
        db.p002comments ++ [p002InsertedComment db req]) := by
  constructor
  · intro db req c hid hc hcit hsp hsd hmid
    obtain ⟨aid, haid⟩ := Option.isSome_iff_exists.mp hid
    refine ⟨?_, rfl, rfl⟩
    simp [addComment, validateSpend, haid, hc, hcit, hsp, hsd, hmid,
      insertedComment, insertComment]
  · intro db req aid a haid hc hfa
    have h1 : findArticleById (p002InsertComment db req) aid = some a := hfa
    refine ⟨?_, rfl⟩
    simp [addComment_p002, haid, hc, h1]

/-- Closed instance of `c8_update_failure_nonfatal_in_server`. -/
theorem c8_update_failure_nonfatal_in_server_witness :
    addComment { updateErr := true } emptyDB reqPlain =
      (.ok (computePoints 2 1 true) 0 (insertedComment emptyDB reqPlain),
       insertComment emptyDB reqPlain) ∧
    addComment_p002 false true c4db { article_id := some 1, comment := "hi" } =
      (.serverError "error updating article points",
       p002InsertComment c4db { article_id := some 1, comment := "hi" }) :=
  ⟨((c8_update_failure_nonfatal_in_server.1 emptyDB reqPlain 1
      (by decide) (by decide) rfl rfl rfl rfl).1),
   ((c8_update_failure_nonfatal_in_server.2 c4db
      { article_id := some 1, comment := "hi" } 1 artA rfl (by decide) rfl).1)⟩

/-- C8 fails as stated on the `part_002` revision: with the article-total
update failing after a successful comment insert, the handler answers 500
(`return res.status(500).json(...)` at lines 212-215) while the inserted
comment stays in the store — the caller does not receive a success response. -/
theorem c8_reports_success_counterexample :
    (addComment_p002 false true c4db { article_id := some 1, comment := "ok" }).1 =
      .serverError "error updating article points" ∧
    (addComment_p002 false true c4db { article_id := some 1, comment := "ok" }).2.p002comments =
      [p002InsertedComment c4db { article_id := some 1, comment := "ok" }] := by
  have h1 : findArticleById (p002InsertComment c4db
      { article_id := some 1, comment := "ok" }) 1 = some artA := rfl
  have hrun : addComment_p002 false true c4db { article_id := some 1, comment := "ok" } =
      (.serverError "error updating article points",
       p002InsertComment c4db { article_id := some 1, comment := "ok" }) := by
    simp [addComment_p002, h1]
  rw [hrun]
  exact ⟨rfl, by simp [p002InsertComment, c4db]⟩

/-! ## C3 — a certificate id is allocated at most once -/

theorem findBySha_updateCert {db : DB} {fp : String} {a : Article} (cid : String)
    (h : findBySha db fp = some a) :
    findBySha (updateCertificateId db a.id cid) fp =
      some { a with certificate_id := some cid } := by
  have hf : db.articles.filter (fun x => x.sha256 == fp) = [a] :=
    getSingle_eq_some.mp h
  simp only [findBySha, updateCertificateId]
  rw [filter_map_comm
        (fun x : Article => if x.id == a.id then { x with certificate_id := some cid } else x)
        (fun x : Article => x.sha256 == fp)
        (by
          intro x
          by_cases hx : (x.id == a.id) = true
          · simp [hx]
          · simp [hx]),
      hf]
  simp [getSingle]

/-- The certificate id carried by a `/verify-article-pdf` response. -/
def pdfCertId : VerifyPdfResp → Option String
  | .notFound => none
  | .pdf _ _ cid _ _ => some cid

/-- C3: once an article carries a (non-empty) certificate id, every
`/verify-article-pdf` call returns that identical id and writes nothing; and
when the id is still NULL, the first call allocates the fresh id `u` and every
subsequent call returns exactly `u`, leaving the store unchanged. -/
theorem c3_certificate_allocated_at_most_once :
    (∀ (db : DB) (fp : String) (a : Article) (c u : String) (t : Nat),
      findBySha db fp = some a → a.certificate_id = some c → c ≠ "" →
      verifyArticlePdf db fp u t =
        (.pdf a.title a.id c ("certificate_" ++ toString a.id ++ ".pdf") t, db)) ∧
    (∀ (db : DB) (fp : String) (a : Article) (u u' : String) (t t' : Nat),
      findBySha db fp = some a → a.certificate_id = none → u ≠ "" →
      pdfCertId (verifyArticlePdf db fp u t).1 = some u ∧
      verifyArticlePdf (verifyArticlePdf db fp u t).2 fp u' t' =
        (.pdf a.title a.id u ("certificate_" ++ toString a.id ++ ".pdf") t',
         (verifyArticlePdf db fp u t).2)) := by
  have stable : ∀ (db : DB) (fp : String) (a : Article) (c u : String) (t : Nat),
      findBySha db fp = some a → a.certificate_id = some c → c ≠ "" →
      verifyArticlePdf db fp u t =
        (.pdf a.title a.id c ("certificate_" ++ toString a.id ++ ".pdf") t, db) := by
    intro db fp a c u t hsha hcert hc
    simp [verifyArticlePdf, hsha, hcert, hc]
  refine ⟨stable, ?_⟩
  intro db fp a u u' t t' hsha hcert hu
  have hrun1 : verifyArticlePdf db fp u t =
      (.pdf a.title a.id u ("certificate_" ++ toString a.id ++ ".pdf") t,
       updateCertificateId db a.id u) := by
    simp [verifyArticlePdf, hsha, hcert]
  have h2 : findBySha (updateCertificateId db a.id u) fp =
      some { a with certificate_id := some u } :=
    findBySha_updateCert u hsha
  rw [hrun1]
  exact ⟨rfl, stable (updateCertificateId db a.id u) fp
    { a with certificate_id := some u } u u' t' h2 rfl hu⟩

/-- Closed instance of `c3_certificate_allocated_at_most_once`: a first verify
call on fingerprint `"f"` allocates `"uuid-1"`, and a second call with a
different fresh draw returns that same `"uuid-1"` without writing. -/
theorem c3_certificate_allocated_at_most_once_witness :
    pdfCertId (verifyArticlePdf c4db "f" "uuid-1" 10).1 = some "uuid-1" ∧
    verifyArticlePdf (verifyArticlePdf c4db "f" "uuid-1" 10).2 "f" "uuid-2" 11 =
      (.pdf "A" 1 "uuid-1" "certificate_1.pdf" 11,
       (verifyArticlePdf c4db "f" "uuid-1" 10).2) :=
  c3_certificate_allocated_at_most_once.2 c4db "f" artA "uuid-1" "uuid-2" 10 11
    rfl rfl (by decide)

/-! ## C6 — verify on an unknown fingerprint -/

theorem sha_filter_small {l : List Article} {fp : String}
    (h : (l.map (fun a => a.sha256)).Nodup) :
    l.filter (fun a => a.sha256 == fp) = [] ∨
    ∃ a, a ∈ l ∧ a.sha256 = fp ∧ l.filter (fun a => a.sha256 == fp) = [a] := by
  induction l with
  | nil => exact Or.inl rfl
  | cons x t ih =>
    simp only [List.map_cons, List.nodup_cons] at h
    obtain ⟨hx, ht⟩ := h
    by_cases hpx : x.sha256 = fp
    · right
      refine ⟨x, List.mem_cons_self x t, hpx, ?_⟩
      have hnil : t.filter (fun a => a.sha256 == fp) = [] := by
        apply List.filter_eq_nil_iff.mpr
        intro b hb hpb
        have hbs : b.sha256 = fp := by simpa using hpb
        apply hx
        rw [hpx, ← hbs]
        exact List.mem_map.mpr ⟨b, hb, rfl⟩
      simp [List.filter_cons, hpx, hnil]
    · rcases ih ht with hnil | ⟨a, ha, hpa, hfa⟩
      · exact Or.inl (by simp [List.filter_cons, hpx, hnil])
      · exact Or.inr ⟨a, List.mem_cons_of_mem x ha, hpa,
          by simp [List.filter_cons, hpx, hfa]⟩

/-- C6: under the fingerprint-uniqueness invariant, `/verify-article` answers
404 exactly when no article matches the fingerprint; the lookup never writes;
and on a miss `/verify-article-pdf` also answers 404 with the store unchanged
(no certificate id is allocated). -/
theorem c6_verify_unknown_fingerprint :
    (∀ (db : DB) (fp : String),
      (db.articles.map (fun a => a.sha256)).Nodup →
      ((verifyArticle db fp).1 = .notFound ↔ ∀ a ∈ db.articles, a.sha256 ≠ fp)) ∧
    (∀ (db : DB) (fp : String), (verifyArticle db fp).2 = db) ∧
    (∀ (db : DB) (fp : String) (u : String) (t : Nat),
      (∀ a ∈ db.articles, a.sha256 ≠ fp) →
      verifyArticlePdf db fp u t = (.notFound, db)) := by
  refine ⟨?_, ?_, ?_⟩
  · intro db fp hnd
    rcases sha_filter_small hnd with hnil | ⟨a, ha, hpa, hfa⟩
    · have hmiss : ∀ a ∈ db.articles, a.sha256 ≠ fp := by
        intro b hb
        have := List.filter_eq_nil_iff.mp hnil b hb
        simpa using this
      simp only [verifyArticle, findBySha, hnil, getSingle]
      exact iff_of_true trivial hmiss
    · have hfind : findBySha db fp = some a := by
        rw [findBySha, hfa]; rfl
      simp only [verifyArticle, hfind]
      constructor
      · intro hcon
        cases hcon
      · intro hall
        exact absurd hpa (hall a ha)
  · intro db fp
    rcases h : findBySha db fp with _ | a <;> simp [verifyArticle, h]
  · intro db fp u t hmiss
    have hnil : db.articles.filter (fun a => a.sha256 == fp) = [] := by
      apply List.filter_eq_nil_iff.mpr
      intro b hb
      simpa using hmiss b hb
    simp [verifyArticlePdf, findBySha, hnil, getSingle]

/-- Closed instance of `c6_verify_unknown_fingerprint`: an unknown fingerprint
gives 404 from both verify endpoints, with no store mutation. -/
theorem c6_verify_unknown_fingerprint_witness :
    ((verifyArticle c4db "nope").1 = .notFound ↔
      ∀ a ∈ c4db.articles, a.sha256 ≠ "nope") ∧
    verifyArticlePdf c4db "nope" "uuid-1" 3 = (.notFound, c4db) :=
  ⟨c6_verify_unknown_fingerprint.1 c4db "nope" (by decide),
   c6_verify_unknown_fingerprint.2.2 c4db "nope" "uuid-1" 3 (by decide)⟩

/-! ## C1 / C9 — fingerprint policy and upload responses -/

/-- The hash field of an upload response, when the response carries one
(`res.json({ hash })` of `part_000`/`part_002`); `server.js`'s `safeArticle`
response deliberately has no such field. -/
def uploadRespHash : UploadResp → Option String
  | .okHash h => some h
  | _ => none

/-- The article id carried by an upload response, when the response carries
one (`server.js`'s `safeArticle`); the `{ hash }` responses of
`part_000`/`part_002` have no such field. -/
def uploadRespArticleId : UploadResp → Option Nat
  | .okArticle a => some a.id
  | _ => none

/-- C1 (evidence): in the content-only variant (`part_002` first server) the
fingerprint is the digest of the content alone — independent of the title —
and, under the fingerprint-uniqueness constraint, a second create with the
same content fails with the store's `Conflict`; in `part_000` the digest input
includes `Date.now()`, so the same title and content submitted at two
different times yield different fingerprints, contradicting content-only
hashing. -/
theorem c1_fingerprint_policy_divergence :
    (∀ (sha : String → String) (db : DB) (title title' content : String),
      (∀ b ∈ db.articles, b.sha256 ≠ sha content) →
      uploadArticle_p002 sha db title content =
        (.okHash (sha content), (appendArticle db title content (sha content)).1) ∧
      uploadArticle_p002 sha (uploadArticle_p002 sha db title content).2 title' content =
        (.storeFailure 500 .conflict, (uploadArticle_p002 sha db title content).2)) ∧
    (∀ sha : String → String, Function.Injective sha →
      (uploadArticle_p000 sha "1000" emptyDB "A" "hello").1 ≠
      (uploadArticle_p000 sha "1001" emptyDB "A" "hello").1) := by
  constructor
  · intro sha db title title' content hfresh
    have hany : db.articles.any (fun b => b.sha256 == sha content) = false := by
      rw [List.any_eq_false]
      intro b hb
      simpa using hfresh b hb
    have h1 : uploadArticle_p002 sha db title content =
        (.okHash (sha content), (appendArticle db title content (sha content)).1) := by
      simp [uploadArticle_p002, insertArticle, hany]
    refine ⟨h1, ?_⟩
    rw [h1]
    have hany2 : ((appendArticle db title content (sha content)).1.articles.any
        (fun b => b.sha256 == sha content)) = true := by
      simp [appendArticle]
    simp [uploadArticle_p002, insertArticle, hany2]
  · intro sha hinj h
    have h1 : (uploadArticle_p000 sha "1000" emptyDB "A" "hello").1 =
        .okHash (sha ("A" ++ "hello" ++ "1000")) := by
      simp [uploadArticle_p000, insertArticle, emptyDB]
    have h2 : (uploadArticle_p000 sha "1001" emptyDB "A" "hello").1 =
        .okHash (sha ("A" ++ "hello" ++ "1001")) := by
      simp [uploadArticle_p000, insertArticle, emptyDB]
    rw [h1, h2] at h
    have := hinj (by
      injection h)
    have hne : ("A" ++ "hello" ++ "1000" : String) ≠ "A" ++ "hello" ++ "1001" := by
      decide
    exact hne this

/-- Closed instance of `c1_fingerprint_policy_divergence` with the identity
digest: resubmitted identical content conflicts in the content-only variant,
while `part_000`'s responses at the two timestamps differ. -/
theorem c1_fingerprint_policy_divergence_witness :
    uploadArticle_p002 id emptyDB "A" "hello" =
      (.okHash "hello", (appendArticle emptyDB "A" "hello" "hello").1) ∧
    uploadArticle_p002 id (uploadArticle_p002 id emptyDB "A" "hello").2 "B" "hello" =
      (.storeFailure 500 .conflict, (uploadArticle_p002 id emptyDB "A" "hello").2) ∧
    (uploadArticle_p000 id "1000" emptyDB "A" "hello").1 ≠
      (uploadArticle_p000 id "1001" emptyDB "A" "hello").1 := by
  obtain ⟨h1, h2⟩ := c1_fingerprint_policy_divergence.1 id emptyDB "A" "B" "hello"
    (by simp [emptyDB])
  exact ⟨h1, h2, c1_fingerprint_policy_divergence.2 id (fun a b hab => hab)⟩

/-- C9 (amended): a successful submission answers with the fingerprint only in
the hash-responding variants (`part_000`/`part_002`, `res.json({ hash })` with
no article id), or with the `safeArticle` record — including the store-assigned
id but deliberately excluding the fingerprint — in `server.js`; a
duplicate-content submission surfaces the store's `Conflict` as an HTTP 500,
not as a distinguished Conflict response. -/
theorem c9_upload_response_shape :
    (∀ (sha : String → String) (db : DB) (title content : String),
      (∀ b ∈ db.articles, b.sha256 ≠ sha content) →
      (uploadArticle_p002 sha db title content).1 = .okHash (sha content) ∧
      uploadRespArticleId (uploadArticle_p002 sha db title content).1 = none) ∧
    (∀ (sha : String → String) (db : DB) (title buf : String),
      title ≠ "" →
      (∀ b ∈ db.articles, b.sha256 ≠ sha buf) →
      (uploadArticle_server sha db title (some buf)).1 =
        .okArticle { id := db.nextArticleId, title := title, points := none } ∧
      uploadRespHash (uploadArticle_server sha db title (some buf)).1 = none) ∧
    (∀ (sha : String → String) (db : DB) (title content : String),
      title ≠ "" →
      (∃ b ∈ db.articles, b.sha256 = sha content) →
      (uploadArticle_p002 sha db title content).1 = .storeFailure 500 .conflict ∧
      (uploadArticle_server sha db title (some content)).1 =
        .storeFailure 500 .conflict) := by
  refine ⟨?_, ?_, ?_⟩
  · intro sha db title content hfresh
    have hany : db.articles.any (fun b => b.sha256 == sha content) = false := by
      rw [List.any_eq_false]
      intro b hb
      simpa using hfresh b hb
    constructor <;> simp [uploadArticle_p002, insertArticle, hany, uploadRespArticleId]
  · intro sha db title buf htitle hfresh
    have hany : db.articles.any (fun b => b.sha256 == sha buf) = false := by
      rw [List.any_eq_false]
      intro b hb
      simpa using hfresh b hb
    constructor <;>
      simp [uploadArticle_server, insertArticle, appendArticle, hany, htitle,
        uploadRespHash]
  · intro sha db title content htitle hdup
    obtain ⟨b, hb, hbs⟩ := hdup
    have hany : db.articles.any (fun x => x.sha256 == sha content) = true := by
      rw [List.any_eq_true]
      exact ⟨b, hb, by simpa using hbs⟩
    constructor <;>
      simp [uploadArticle_p002, uploadArticle_server, insertArticle, hany, htitle]

/-- Closed instance of `c9_upload_response_shape` with the identity digest. -/
theorem c9_upload_response_shape_witness :
    ((uploadArticle_p002 id emptyDB "B" "hello").1 = .okHash "hello" ∧
     uploadRespArticleId (uploadArticle_p002 id emptyDB "B" "hello").1 = none) ∧
    ((uploadArticle_server id emptyDB "B" (some "hello")).1 =
       .okArticle { id := 1, title := "B", points := none } ∧
     uploadRespHash (uploadArticle_server id emptyDB "B" (some "hello")).1 = none) ∧
    (uploadArticle_p002 id
        { articles := [{ id := 1, title := "A", content := "hello", sha256 := "hello" }],
          nextArticleId := 2 } "B" "hello").1 = .storeFailure 500 .conflict :=
  ⟨c9_upload_response_shape.1 id emptyDB "B" "hello" (by simp [emptyDB]),
   c9_upload_response_shape.2.1 id emptyDB "B" "hello" (by decide) (by simp [emptyDB]),
   (c9_upload_response_shape.2.2 id
      { articles := [{ id := 1, title := "A", content := "hello", sha256 := "hello" }],
        nextArticleId := 2 } "B" "hello" (by decide)
      ⟨{ id := 1, title := "A", content := "hello", sha256 := "hello" },
       by simp, rfl⟩).1⟩

/-- C9 fails as stated: the successful `part_002` response carries the hash
but no article id, and the successful `server.js` response carries the article
id but no fingerprint — no variant returns both `{fingerprint, article_id}`. -/
theorem c9_returns_both_counterexample :
    (uploadArticle_p002 id emptyDB "A" "hello").1 = .okHash "hello" ∧
    uploadRespArticleId (uploadArticle_p002 id emptyDB "A" "hello").1 = none ∧
    (uploadArticle_server id emptyDB "A" (some "hello")).1 =
      .okArticle { id := 1, title := "A", points := none } ∧
    uploadRespHash (uploadArticle_server id emptyDB "A" (some "hello")).1 = none := by
  refine ⟨?_, ?_, ?_, ?_⟩ <;>
    simp [uploadArticle_p002, uploadArticle_server, insertArticle, appendArticle,
      emptyDB, uploadRespArticleId, uploadRespHash]

end ArcHives
